import Mathlib

/-!
Shallow embedding of the web-texture-tool repository (compute-toys/web-texture-tool):
format negotiation, worker-pool scheduling, texture data model, and the WebGPU
mipmap generator, together with theorems settling the specification claims.

Sources embedded:
- src/build/webgpu-texture-loader.js (minified build: ImageLoader `T`, WorkerLoader `p`,
  WebTextureLevelData `F`, WebTextureTool `S`, WebGPUMipmapGenerator `G`, client `j`)
- src/src/webgpu-texture-tool.js (calculateMipLevels and the Basis worker transcode)
- src/src/workers/ktx/ktx-worker.js (parseFile format selection)
-/

set_option autoImplicit false

namespace WebTextureTool

/-! ## Format registry and browser-image format negotiation -/

/-- The MIME type → preferred canonical format table `k` at the top of the build
(`var k={"image/jpeg":"rgb8unorm", ...}`). -/
def imageFormatForMimeType : List (String × String) :=
  [("image/jpeg", "rgb8unorm"), ("image/png", "rgba8unorm"), ("image/apng", "rgba8unorm"),
   ("image/gif", "rgba8unorm"), ("image/bmp", "rgb8unorm"), ("image/webp", "rgba8unorm"),
   ("image/x-icon", "rgba8unorm"), ("image/svg+xml", "rgba8unorm")]

/-- The format-negotiation step of `ImageLoader.fromUrl` / `fromBlob` in the build:
`let o=k[r.mimeType]; if(e.supportedFormatList.indexOf(o)==-1&&(o="rgba8unorm"))...`.
`requested = none` models `k[mimeType]` being `undefined` (unknown MIME type), for which
`indexOf` also returns `-1`. -/
def negotiateImageFormat (supportedFormatList : List String) (requested : Option String) :
    String :=
  match requested with
  | some f => if f ∈ supportedFormatList then f else "rgba8unorm"
  | none => "rgba8unorm"

/-- The full format computation of `ImageLoader.fromUrl`, combining the MIME lookup with
the negotiation step. -/
def imageLoaderFromUrlFormat (supportedFormatList : List String) (mimeType : String) :
    String :=
  negotiateImageFormat supportedFormatList (imageFormatForMimeType.lookup mimeType)

/-! ## Mip chain length -/

/-- `calculateMipLevels(width, height)` from src/webgpu-texture-tool.js (function `A` in the
build): `Math.floor(Math.log2(Math.max(width, height))) + 1`.  For positive integers,
`Math.floor(Math.log2 n)` is `Nat.log2 n`. -/
def calculateMipLevels (width height : Nat) : Nat :=
  Nat.log2 (max width height) + 1

/-! ## Worker pool scheduler -/

/-- The constant `V=4` in the build: maximum number of workers in a `WorkerLoader` pool. -/
def MAX_WORKER_POOL_SIZE : Nat := 4

/-- The pool-related fields of a `WorkerLoader` (`p` in the build): `workerPool` is
represented by its length (worker handles carry no other relevant state for scheduling),
`nextWorker` is the round-robin cursor, and `outstandingRequests` the outstanding-request
counter (an `Int`, since worker responses decrement it). -/
structure WorkerPoolState where
  poolSize : Nat
  nextWorker : Nat
  outstandingRequests : Int
  deriving DecidableEq

/-- Pool state after the `WorkerLoader` constructor:
`this.workerPool=[],this.nextWorker=0,this.outstandingRequests=0,this.addWorker()`. -/
def initialWorkerPool : WorkerPoolState :=
  { poolSize := 1, nextWorker := 0, outstandingRequests := 0 }

/-- Which worker `selectWorker()` returned: a freshly added worker (`addWorker()` pushes it
at index `index`, the old pool length) or an existing worker at `index`. -/
inductive WorkerChoice where
  | added (index : Nat)
  | existing (index : Nat)
  deriving DecidableEq

/-- `true` iff the choice is a freshly instantiated worker. -/
def WorkerChoice.isAdded : WorkerChoice → Bool
  | .added _ => true
  | .existing _ => false

/-- `selectWorker()` from the build:
`return this.outstandingRequests++, this.outstandingRequests>=this.workerPool.length &&
this.workerPool.length<V ? this.addWorker() :
this.workerPool[this.nextWorker++%this.workerPool.length]`.
The comparison reads the already-incremented counter. -/
def selectWorker (s : WorkerPoolState) : WorkerPoolState × WorkerChoice :=
  let out := s.outstandingRequests + 1
  if (s.poolSize : Int) ≤ out ∧ s.poolSize < MAX_WORKER_POOL_SIZE then
    ({ poolSize := s.poolSize + 1, nextWorker := s.nextWorker, outstandingRequests := out },
      .added s.poolSize)
  else
    ({ s with outstandingRequests := out, nextWorker := s.nextWorker + 1 },
      .existing (s.nextWorker % s.poolSize))

/-- A pool state after `n` consecutive `selectWorker()` calls starting from the
freshly constructed pool. -/
def runSelectWorker : Nat → WorkerPoolState
  | 0 => initialWorkerPool
  | n + 1 => (selectWorker (runSelectWorker n)).1

theorem selectWorker_poolSize_le (s : WorkerPoolState)
    (h : s.poolSize ≤ MAX_WORKER_POOL_SIZE) :
    (selectWorker s).1.poolSize ≤ MAX_WORKER_POOL_SIZE := by
  simp only [selectWorker]
  split
  · next hc => exact hc.2
  · exact h

theorem selectWorker_poolSize_mono (s : WorkerPoolState) :
    s.poolSize ≤ (selectWorker s).1.poolSize := by
  simp only [selectWorker]
  split <;> simp

theorem runSelectWorker_poolSize_le (n : Nat) :
    (runSelectWorker n).poolSize ≤ MAX_WORKER_POOL_SIZE := by
  induction n with
  | zero => decide
  | succ n ih => exact selectWorker_poolSize_le _ ih

/-- Claim C3: over every sequence of `selectWorker()` calls, the pool never holds more than
4 workers and never shrinks; a new worker is instantiated exactly when the incremented
outstanding-request counter reaches the current pool size while the pool is below the
maximum, and otherwise the worker at index `nextWorker % poolSize` is chosen with the
cursor advanced by one. -/
theorem c3_selectWorker_growth_invariants (n : Nat) :
    (runSelectWorker n).poolSize ≤ MAX_WORKER_POOL_SIZE ∧
    (runSelectWorker n).poolSize ≤ (runSelectWorker (n + 1)).poolSize ∧
    ((selectWorker (runSelectWorker n)).2.isAdded = true ↔
      (((runSelectWorker n).poolSize : Int) ≤ (runSelectWorker n).outstandingRequests + 1 ∧
        (runSelectWorker n).poolSize < MAX_WORKER_POOL_SIZE)) ∧
    (¬(((runSelectWorker n).poolSize : Int) ≤ (runSelectWorker n).outstandingRequests + 1 ∧
        (runSelectWorker n).poolSize < MAX_WORKER_POOL_SIZE) →
      (selectWorker (runSelectWorker n)).2 =
        .existing ((runSelectWorker n).nextWorker % (runSelectWorker n).poolSize) ∧
      (selectWorker (runSelectWorker n)).1.nextWorker = (runSelectWorker n).nextWorker + 1) := by
  refine ⟨runSelectWorker_poolSize_le n, selectWorker_poolSize_mono _, ?_, ?_⟩
  · simp only [selectWorker]
    split
    · next hc => simpa [WorkerChoice.isAdded] using hc
    · next hc => simpa [WorkerChoice.isAdded] using hc
  · intro hc
    simp only [selectWorker]
    split
    · next hc2 => exact absurd hc2 hc
    · exact ⟨rfl, rfl⟩

/-- Witness for C3 at `n = 3`: the pool has grown to 4 workers, the incremented counter
equals the pool size but the maximum has been reached, so `selectWorker` picks worker
`0 % 4 = 0` by round robin. -/
theorem c3_witness :
    (runSelectWorker 3).poolSize ≤ MAX_WORKER_POOL_SIZE ∧
    (selectWorker (runSelectWorker 3)).2 = .existing 0 :=
  ⟨(c3_selectWorker_growth_invariants 3).1,
    ((c3_selectWorker_growth_invariants 3).2.2.2 (by decide)).1⟩

/-! ## WorkerLoader dispatch and destruction

The build's worker-backed loader `p` keeps module-level state: the pending-request table
`d = {}` (keyed by correlation id) and the id counter `C = 1`.  Its `destroy()` reads
`this.worker`, a field that no code in the module ever assigns (the constructor creates
`this.workerPool`), so the guard `if (this.worker)` is always false. -/

/-- A pending request record (class `L` in the build): the owning client and the request
options relevant here; the resolve/reject continuations are tracked by the observer
fields of `WorkerLoaderState` instead. -/
structure PendingTextureRequest where
  client : Nat
  mipmaps : Bool
  deriving DecidableEq

/-- The `WorkerLoader` instance fields plus the module-level table `d` and counter `C`,
with observer fields recording terminations and rejections. -/
structure WorkerLoaderState where
  pool : WorkerPoolState
  /-- The `this.worker` field read by `destroy()`; never assigned anywhere in the module. -/
  worker : Option Nat
  /-- The module-level pending-request table `d`, as (correlation id, record) pairs. -/
  pendingTextures : List (Nat × PendingTextureRequest)
  /-- The module-level next correlation id `C`. -/
  nextPendingTextureId : Nat
  /-- Whether any `terminate()` call has been issued on a worker. -/
  terminated : Bool
  /-- Requests rejected so far, as (correlation id, error message) pairs. -/
  rejected : List (Nat × String)
  deriving DecidableEq

/-- Module state right after `new p(...)`: pool of one worker, `d` empty, `C = 1`. -/
def initialWorkerLoader : WorkerLoaderState :=
  { pool := initialWorkerPool, worker := none, pendingTextures := [],
    nextPendingTextureId := 1, terminated := false, rejected := [] }

/-- Externally visible steps of a dispatch, in program order. -/
inductive DispatchEvent where
  | postMessage (id : Nat)
  | recordPending (id : Nat)
  deriving DecidableEq, BEq

/-- `WorkerLoader.fromUrl` (the `fromBuffer` body is identical in shape):
`let o=C++; return this.selectWorker().postMessage({id:o,...}), new Promise((s,i)=>{d[o]=new L(e,r,s,i)})`.
The message is posted first; the `Promise` executor then runs synchronously and records
`d[o]`.  The returned event list is in program order. -/
def WorkerLoader.fromUrl (s : WorkerLoaderState) (client : Nat) (mipmaps : Bool) :
    WorkerLoaderState × List DispatchEvent :=
  let o := s.nextPendingTextureId
  let s1 := { s with nextPendingTextureId := s.nextPendingTextureId + 1 }
  let s2 := { s1 with pool := (selectWorker s1.pool).1 }
  let s3 := { s2 with pendingTextures := s2.pendingTextures ++ [(o, ⟨client, mipmaps⟩)] }
  (s3, [.postMessage o, .recordPending o])

/-- `WorkerLoader.destroy()` from the build:
`destroy(){if(this.worker){this.worker.terminate();let e=new Error("Texture loader was destroyed.");for(let t of d)t.reject(e)}}`.
The guard reads `this.worker`, which is never assigned, so on every reachable state the
branch is skipped.  (Were the branch ever entered, `for (let t of d)` would additionally
throw, since `d` is a plain object.) -/
def WorkerLoader.destroy (s : WorkerLoaderState) : WorkerLoaderState :=
  match s.worker with
  | none => s
  | some _ =>
    { s with terminated := true,
             rejected := s.rejected ++
               s.pendingTextures.map (fun p => (p.1, "Texture loader was destroyed.")) }

/-- Claim C2 (code bug): on a pool with one pending request, `destroy()` is a no-op — the
pending future is not rejected, no worker is terminated, and a further dispatch still
proceeds — because the guard `if (this.worker)` reads a field the constructor never sets. -/
theorem c2_destroy_is_noop :
    WorkerLoader.destroy (WorkerLoader.fromUrl initialWorkerLoader 0 true).1 =
      (WorkerLoader.fromUrl initialWorkerLoader 0 true).1 ∧
    (WorkerLoader.destroy (WorkerLoader.fromUrl initialWorkerLoader 0 true).1).pendingTextures.length = 1 ∧
    (WorkerLoader.destroy (WorkerLoader.fromUrl initialWorkerLoader 0 true).1).rejected = [] ∧
    (WorkerLoader.destroy (WorkerLoader.fromUrl initialWorkerLoader 0 true).1).terminated = false ∧
    (WorkerLoader.fromUrl
        (WorkerLoader.destroy (WorkerLoader.fromUrl initialWorkerLoader 0 true).1) 1 true).2 =
      [.postMessage 2, .recordPending 2] := by
  decide

/-- Counterexample to claim C6 as stated: in the dispatch `fromUrl` on a fresh loader, the
`postMessage` for correlation id 1 occurs strictly before the pending-request table is
written, not after. -/
theorem c6_counterexample :
    (WorkerLoader.fromUrl initialWorkerLoader 0 true).2 =
      [.postMessage 1, .recordPending 1] ∧
    (WorkerLoader.fromUrl initialWorkerLoader 0 true).2.indexOf (.postMessage 1) <
      (WorkerLoader.fromUrl initialWorkerLoader 0 true).2.indexOf (.recordPending 1) := by
  decide

/-- Claim C6 as amended: every dispatch allocates a fresh correlation id (one not in the
pending table, with the counter advanced by one), posts the message, and then — still
within the same synchronous dispatch, before control returns — records the request in the
pending table under that id. -/
theorem c6_amended_dispatch_order (s : WorkerLoaderState) (client : Nat) (mipmaps : Bool)
    (hfresh : ∀ p ∈ s.pendingTextures, p.1 < s.nextPendingTextureId) :
    (WorkerLoader.fromUrl s client mipmaps).2 =
      [.postMessage s.nextPendingTextureId, .recordPending s.nextPendingTextureId] ∧
    (∀ p ∈ s.pendingTextures, p.1 ≠ s.nextPendingTextureId) ∧
    (s.nextPendingTextureId, (⟨client, mipmaps⟩ : PendingTextureRequest)) ∈
      (WorkerLoader.fromUrl s client mipmaps).1.pendingTextures ∧
    (WorkerLoader.fromUrl s client mipmaps).1.nextPendingTextureId =
      s.nextPendingTextureId + 1 := by
  refine ⟨rfl, ?_, ?_, rfl⟩
  · intro p hp
    exact Nat.ne_of_lt (hfresh p hp)
  · simp [WorkerLoader.fromUrl]

/-- Witness for the amended C6 on a fresh loader: id 1 is allocated, posted, and recorded. -/
theorem c6_witness :
    (WorkerLoader.fromUrl initialWorkerLoader 0 true).2 =
      [.postMessage 1, .recordPending 1] ∧
    ((1 : Nat), (⟨0, true⟩ : PendingTextureRequest)) ∈
      (WorkerLoader.fromUrl initialWorkerLoader 0 true).1.pendingTextures :=
  ⟨(c6_amended_dispatch_order initialWorkerLoader 0 true (by decide)).1,
    (c6_amended_dispatch_order initialWorkerLoader 0 true (by decide)).2.2.1⟩

/-- Claim C1: browser-image format negotiation returns the requested canonical format
unchanged when it is in the device's supported list, and the baseline `"rgba8unorm"`
otherwise. -/
theorem c1_image_format_negotiation (F : String) (S : List String) :
    (F ∈ S → negotiateImageFormat S (some F) = F) ∧
    (F ∉ S → negotiateImageFormat S (some F) = "rgba8unorm") := by
  constructor
  · intro h
    simp [negotiateImageFormat, h]
  · intro h
    simp [negotiateImageFormat, h]

/-- Witness for C1: `"bgra8unorm"` is kept when supported; `"bc3-rgba-unorm"` falls back to
`"rgba8unorm"` when unsupported. -/
theorem c1_witness :
    negotiateImageFormat ["rgba8unorm", "bgra8unorm"] (some "bgra8unorm") = "bgra8unorm" ∧
    negotiateImageFormat ["rgba8unorm"] (some "bc3-rgba-unorm") = "rgba8unorm" :=
  ⟨(c1_image_format_negotiation "bgra8unorm" ["rgba8unorm", "bgra8unorm"]).1 (by decide),
    (c1_image_format_negotiation "bc3-rgba-unorm" ["rgba8unorm"]).2 (by decide)⟩

/-! ## Container-format transcode target negotiation (C4)

Two workers pick a transcode target.  The Basis worker
(src/src/webgpu-texture-tool.js, `transcode`) branches on `hasAlpha` and walks a
hand-ordered cascade of `if`s for each case.  The KTX worker
(src/src/workers/ktx/ktx-worker.js, `parseFile`) declares two preference lists but its
loop iterates `alphaFormatPreference` only; `opaqueFormatPreference` is never used. -/

/-- `transcoder_texture_format` constants queried by the Basis worker's `transcode`. -/
inductive BasisFormat where
  | cTFETC1_RGB
  | cTFETC2_RGBA
  | cTFBC1_RGB
  | cTFBC3_RGBA
  | cTFBC7_RGBA
  | cTFASTC_4x4_RGBA
  | cTFPVRTC1_4_RGB
  | cTFPVRTC1_4_RGBA
  | cTFRGBA32
  | cTFRGB565
  | cTFRGBA4444
  deriving DecidableEq

/-- The `format` field of `WTT_FORMAT_MAP` in the Basis worker. -/
def basisWttFormat : BasisFormat → String
  | .cTFBC1_RGB => "bc1-rgb-unorm"
  | .cTFBC3_RGBA => "bc3-rgba-unorm"
  | .cTFBC7_RGBA => "bc7-rgba-unorm"
  | .cTFETC1_RGB => "etc1-rgb-unorm"
  | .cTFETC2_RGBA => "etc2-rgba8unorm"
  | .cTFASTC_4x4_RGBA => "astc-4x4-rgba-unorm"
  | .cTFPVRTC1_4_RGB => "pvrtc1-4bpp-rgb-unorm"
  | .cTFPVRTC1_4_RGBA => "pvrtc1-4bpp-rgba-unorm"
  | .cTFRGBA32 => "rgba8unorm"
  | .cTFRGB565 => "rgb565unorm"
  | .cTFRGBA4444 => "rgba4unorm"

/-- The `supportedFormats` object built in the Basis worker's `onmessage`:
`supportedFormats[basisFormat] = msg.data.supportedFormats.indexOf(wttFormat.format) > -1`. -/
def basisSupported (supportedFormats : List String) (f : BasisFormat) : Bool :=
  supportedFormats.contains (basisWttFormat f)

/-- The format-selection cascade of the Basis worker's `transcode` (lines 522-564 of the
concatenated src/src/webgpu-texture-tool.js file). -/
def basisTranscodeFormat (hasAlpha : Bool) (sup : BasisFormat → Bool) : BasisFormat :=
  if hasAlpha then
    if sup .cTFETC2_RGBA then .cTFETC2_RGBA
    else if sup .cTFBC7_RGBA then .cTFBC7_RGBA
    else if sup .cTFBC3_RGBA then .cTFBC3_RGBA
    else if sup .cTFASTC_4x4_RGBA then .cTFASTC_4x4_RGBA
    else if sup .cTFPVRTC1_4_RGBA then .cTFPVRTC1_4_RGBA
    else .cTFRGBA32
  else
    if sup .cTFETC1_RGB then .cTFETC1_RGB
    else if sup .cTFBC7_RGBA then .cTFBC7_RGBA
    else if sup .cTFBC1_RGB then .cTFBC1_RGB
    else if sup .cTFETC2_RGBA then .cTFETC2_RGBA
    else if sup .cTFASTC_4x4_RGBA then .cTFASTC_4x4_RGBA
    else if sup .cTFPVRTC1_4_RGB then .cTFPVRTC1_4_RGB
    else if sup .cTFRGB565 then .cTFRGB565
    else .cTFRGBA32

/-- `WTT_FORMAT_MAP` of the KTX worker (transcode-target name → canonical format name). -/
def ktxFormatMap : List (String × String) :=
  [("BC1_RGB", "bc1-rgb-unorm"), ("BC3_RGBA", "bc3-rgba-unorm"),
   ("BC7_M5_RGBA", "bc7-rgba-unorm"), ("ETC1_RGB", "etc1-rgb-unorm"),
   ("ETC2_RGBA", "etc2-rgba8unorm"), ("ASTC_4x4_RGBA", "astc-4x4-rgba-unorm"),
   ("PVRTC1_4_RGB", "pvrtc1-4bpp-rgb-unorm"), ("PVRTC1_4_RGBA", "pvrtc1-4bpp-rgba-unorm"),
   ("RGBA32", "rgba8unorm"), ("RGB565", "rgb565unorm"), ("RGBA4444", "rgba4unorm")]

/-- `alphaFormatPreference` in the KTX worker. -/
def alphaFormatPreference : List String :=
  ["ETC2_RGBA", "BC7_M5_RGBA", "BC3_RGBA", "ASTC_4x4_RGBA", "PVRTC1_4_RGBA", "RGBA32"]

/-- `opaqueFormatPreference` in the KTX worker (declared but never read by `parseFile`). -/
def opaqueFormatPreference : List String :=
  ["ETC1_RGB", "BC7_M5_RGBA", "BC1_RGB", "ETC2_RGBA", "ASTC_4x4_RGBA", "PVRTC1_4_RGB",
   "RGB565", "RGBA32"]

/-- The selection loop in `parseFile`, over a given preference list:
`for (const targetFormat of preference) { const wttFormat = WTT_FORMAT_MAP[targetFormat];
if (supportedFormats.indexOf(wttFormat.format) > -1) { ... break; } }`. -/
def ktxTranscodeTargetFrom (preference : List String) (supportedFormats : List String) :
    Option String :=
  preference.find? (fun targetFormat =>
    match ktxFormatMap.lookup targetFormat with
    | some f => supportedFormats.contains f
    | none => false)

/-- The transcode-target selection actually performed by `parseFile`: it hardcodes
`alphaFormatPreference` regardless of whether the source has alpha. -/
def ktxSelectTranscodeTarget (supportedFormats : List String) : Option String :=
  ktxTranscodeTargetFrom alphaFormatPreference supportedFormats

/-- Claim C4 (code bug in the KTX worker): on a device supporting exactly
`etc1-rgb-unorm` and `etc2-rgba8unorm`, an opaque transcode should walk the opaque list
and pick `ETC1_RGB` (as the Basis worker's opaque branch indeed does, and as the KTX
worker's own comment — "ETC1 Should be the highest quality, so use when available" —
prescribes), but `parseFile` walks `alphaFormatPreference` and picks `ETC2_RGBA`. -/
theorem c4_ktx_ignores_opaque_preference :
    ktxSelectTranscodeTarget ["etc1-rgb-unorm", "etc2-rgba8unorm"] = some "ETC2_RGBA" ∧
    ktxTranscodeTargetFrom opaqueFormatPreference ["etc1-rgb-unorm", "etc2-rgba8unorm"] =
      some "ETC1_RGB" ∧
    basisTranscodeFormat false (basisSupported ["etc1-rgb-unorm", "etc2-rgba8unorm"]) =
      .cTFETC1_RGB ∧
    basisTranscodeFormat true (basisSupported ["etc1-rgb-unorm", "etc2-rgba8unorm"]) =
      .cTFETC2_RGBA := by
  decide

/-! ## Texture data model: setSlice (C8) -/

/-- The second argument of `setSlice`: either a raw `ArrayBuffer` or a typed-array view. -/
inductive BufferSource where
  | arrayBuffer (byteLength : Nat)
  | typedView (bufferByteLength : Nat) (viewByteOffset : Nat) (viewByteLength : Nat)
  deriving DecidableEq

/-- The record stored into `slices[e]`: `{buffer: i, byteOffset: o, byteLength: s}`.
The backing buffer is represented by its byte length. -/
structure TextureSliceData where
  bufferByteLength : Nat
  byteOffset : Int
  byteLength : Int
  deriving DecidableEq

/-- Class `F` in the build (`WebTextureLevelData`): a mip level with its sparse
`slices` array (`none` entries are the holes a JS assignment past the end leaves). -/
structure WebTextureLevelData where
  levelIndex : Nat
  width : Nat
  height : Nat
  slices : List (Option TextureSliceData)
  deriving DecidableEq

/-- JS sparse-array assignment `slices[i] = some v`, padding with holes past the end. -/
def listSetPad : List (Option TextureSliceData) → Nat → TextureSliceData →
    List (Option TextureSliceData)
  | [], 0, v => [some v]
  | [], i + 1, v => none :: listSetPad [] i v
  | _ :: t, 0, v => some v :: t
  | h :: t, i + 1, v => h :: listSetPad t i v

/-- `setSlice(e, t, r)` from the build:
`if(this.slices[e]!=null)throw new Error("Cannot define an image slice twice.");
let o=r.byteOffset||0,s=r.byteLength||0,i;
t instanceof ArrayBuffer?(i=t,s||(s=i.byteLength-o)):(i=t.buffer,s||(s=t.byteLength-o),o+=t.byteOffset),
this.slices[e]={buffer:i,byteOffset:o,byteLength:s}`.
Options absent in `r` are `none`; `x||0` also maps an explicit `0` to `0`, hence `getD 0`.
The result pairs the (possibly updated) level with the thrown error message, if any;
on a throw the level is returned unchanged, since the check precedes the assignment. -/
def WebTextureLevelData.setSlice (lvl : WebTextureLevelData) (e : Nat)
    (t : BufferSource) (rByteOffset rByteLength : Option Int) :
    WebTextureLevelData × Option String :=
  if (lvl.slices.getD e none).isSome then
    (lvl, some "Cannot define an image slice twice.")
  else
    let o := rByteOffset.getD 0
    let s := rByteLength.getD 0
    match t with
    | .arrayBuffer len =>
      let s := if s = 0 then (len : Int) - o else s
      ({ lvl with slices := listSetPad lvl.slices e ⟨len, o, s⟩ }, none)
    | .typedView blen voff vlen =>
      let s := if s = 0 then (vlen : Int) - o else s
      let o := o + (voff : Int)
      ({ lvl with slices := listSetPad lvl.slices e ⟨blen, o, s⟩ }, none)

theorem listSetPad_getElem (l : List (Option TextureSliceData)) (i : Nat)
    (v : TextureSliceData) : (listSetPad l i v)[i]? = some (some v) := by
  induction l generalizing i with
  | nil =>
    induction i with
    | zero => simp [listSetPad]
    | succ i ih => simpa [listSetPad] using ih
  | cons h t ih =>
    cases i with
    | zero => simp [listSetPad]
    | succ i => simpa [listSetPad] using ih i

theorem listSetPad_getD (l : List (Option TextureSliceData)) (i : Nat)
    (v : TextureSliceData) : (listSetPad l i v).getD i none = some v := by
  induction l generalizing i with
  | nil =>
    induction i with
    | zero => rfl
    | succ i ih => simpa [listSetPad] using ih
  | cons h t ih =>
    cases i with
    | zero => rfl
    | succ i => simpa [listSetPad] using ih i

/-- Claim C8: setting a slice at an index that is already set fails with the usage error
and leaves the level's slices unchanged (`setSlice` itself performs no GPU call at all —
it only writes the in-memory data model); an index not yet set is set exactly once:
the first `setSlice` succeeds and any repeated `setSlice` at that index then fails,
again leaving the level unchanged. -/
theorem c8_setSlice_at_most_once (lvl : WebTextureLevelData) (i : Nat)
    (t t2 : BufferSource) (ro rl ro2 rl2 : Option Int) :
    ((lvl.slices.getD i none).isSome = true →
      lvl.setSlice i t ro rl = (lvl, some "Cannot define an image slice twice.")) ∧
    (lvl.slices.getD i none = none →
      (lvl.setSlice i t ro rl).2 = none ∧
      (((lvl.setSlice i t ro rl).1.slices.getD i none).isSome = true) ∧
      (lvl.setSlice i t ro rl).1.setSlice i t2 ro2 rl2 =
        ((lvl.setSlice i t ro rl).1, some "Cannot define an image slice twice.")) := by
  have herr : ∀ (l : WebTextureLevelData) (src : BufferSource) (a b : Option Int),
      (l.slices.getD i none).isSome = true →
      l.setSlice i src a b = (l, some "Cannot define an image slice twice.") := by
    intro l src a b hl
    unfold WebTextureLevelData.setSlice
    rw [if_pos hl]
  have hok : ∀ (src : BufferSource) (a b : Option Int),
      lvl.slices.getD i none = none →
      (lvl.setSlice i src a b).2 = none ∧
      ((lvl.setSlice i src a b).1.slices.getD i none).isSome = true := by
    intro src a b hl
    have hnot : ¬(lvl.slices.getD i none).isSome = true := by rw [hl]; simp
    unfold WebTextureLevelData.setSlice
    rw [if_neg hnot]
    cases src <;> simp [listSetPad_getElem]
  refine ⟨herr lvl t ro rl, fun h => ⟨(hok t ro rl h).1, (hok t ro rl h).2, ?_⟩⟩
  exact herr _ t2 ro2 rl2 (hok t ro rl h).2

/-- Witness for C8 on an empty level: slice 0 is set once, the repeat attempt fails with
the usage error and leaves the level unchanged. -/
theorem c8_witness :
    (WebTextureLevelData.setSlice ⟨0, 4, 4, []⟩ 0 (.arrayBuffer 64) none none).2 = none ∧
    (WebTextureLevelData.setSlice ⟨0, 4, 4, []⟩ 0 (.arrayBuffer 64) none none).1.setSlice 0
        (.arrayBuffer 64) none none =
      ((WebTextureLevelData.setSlice ⟨0, 4, 4, []⟩ 0 (.arrayBuffer 64) none none).1,
        some "Cannot define an image slice twice.") :=
  ⟨((c8_setSlice_at_most_once ⟨0, 4, 4, []⟩ 0 (.arrayBuffer 64) (.arrayBuffer 64)
      none none none none).2 rfl).1,
    ((c8_setSlice_at_most_once ⟨0, 4, 4, []⟩ 0 (.arrayBuffer 64) (.arrayBuffer 64)
      none none none none).2 rfl).2.2⟩

/-! ## fromColor (C9) -/

/-- JS `ToUint8` as applied by an assignment into a `Uint8Array`: truncate toward zero,
then take the result modulo 2^8.  Channel arguments are modelled as rationals. -/
def jsTrunc (q : ℚ) : Int :=
  if q < 0 then -Int.floor (-q) else Int.floor q

/-- Byte stored by `new Uint8Array([v])` for the number `v`. -/
def jsToUint8 (q : ℚ) : Nat :=
  (jsTrunc q % 256).toNat

/-- What `fromColor` hands to `fromTextureData`: `new I(s,1,1,i)` (a 1×1
`WebTextureData` whose level-0 slice-0 holds the four bytes) plus the
`generateMipmaps` argument `!1`. -/
structure ColorTextureData where
  format : String
  width : Nat
  height : Nat
  data : List Nat
  generateMipmaps : Bool
  deriving DecidableEq

/-- `fromColor(e,t,r,o=1,s="rgba8unorm")` from the build (class `S`):
destroyed-client check, then
`if(s!="rgba8unorm"&&s!="rgba8unorm-srgb")throw new Error(...)`, then
`let i=new Uint8Array([e*255,t*255,r*255,o*255]);
return this[n].fromTextureData(new I(s,1,1,i),!1)`.
An `Except.error` is a throw; `Except.ok` carries the texture data built. -/
def fromColor (live : Bool) (e t r o : ℚ) (s : String) :
    Except String ColorTextureData :=
  if !live then
    .error "Cannot create new textures after object has been destroyed."
  else if s ≠ "rgba8unorm" ∧ s ≠ "rgba8unorm-srgb" then
    .error "fromColor only supports \"rgba8unorm\" and \"rgba8unorm-srgb\" formats"
  else
    .ok ⟨s, 1, 1,
      [jsToUint8 (e * 255), jsToUint8 (t * 255), jsToUint8 (r * 255), jsToUint8 (o * 255)],
      false⟩

/-- Claim C9: on a live client, `fromColor` throws (creating no texture) whenever the
format is neither `"rgba8unorm"` nor `"rgba8unorm-srgb"`, and for those two formats
builds a 1×1 texture whose four bytes are the channel values scaled by 255 (and converted
to `Uint8`), with mipmap generation off. -/
theorem c9_fromColor_format_check (e t r o : ℚ) (s : String) :
    (s ≠ "rgba8unorm" → s ≠ "rgba8unorm-srgb" →
      fromColor true e t r o s =
        .error "fromColor only supports \"rgba8unorm\" and \"rgba8unorm-srgb\" formats") ∧
    ((s = "rgba8unorm" ∨ s = "rgba8unorm-srgb") →
      fromColor true e t r o s =
        .ok ⟨s, 1, 1,
          [jsToUint8 (e * 255), jsToUint8 (t * 255), jsToUint8 (r * 255),
            jsToUint8 (o * 255)],
          false⟩) := by
  constructor
  · intro h1 h2
    simp [fromColor, h1, h2]
  · intro h
    rcases h with h | h <;> simp [fromColor, h]

/-- Witness for C9: a compressed format is rejected; `"rgba8unorm"` with channels
`(1, 0, 1/2, 1)` yields the bytes `[255, 0, 127, 255]`. -/
theorem c9_witness :
    fromColor true 1 0 (1/2) 1 "bc1-rgb-unorm" =
      .error "fromColor only supports \"rgba8unorm\" and \"rgba8unorm-srgb\" formats" ∧
    fromColor true 1 0 (1/2) 1 "rgba8unorm" =
      .ok ⟨"rgba8unorm", 1, 1, [255, 0, 127, 255], false⟩ := by
  constructor
  · exact (c9_fromColor_format_check 1 0 (1/2) 1 "bc1-rgb-unorm").1 (by decide) (by decide)
  · rw [(c9_fromColor_format_check 1 0 (1/2) 1 "rgba8unorm").2 (Or.inl rfl)]
    norm_num [jsToUint8, jsTrunc]
    decide

/-! ## WebGPU mipmap generator (C5, C10)

`G.generateMipmap(e, t)` in the build, for a texture `e` created from descriptor `t`.
The embedding records the sequence of GPU operations the method performs.  Textures are
named: `dst` is the destination texture `e`, `tmp` the temporary render target `o`
allocated when `e` lacks `RENDER_ATTACHMENT` usage. -/

/-- `GPUTextureUsage` bit constants, as defined by the WebGPU specification (the browser
collaborator). -/
def GPUTextureUsage.COPY_SRC : Nat := 1

def GPUTextureUsage.COPY_DST : Nat := 2

def GPUTextureUsage.TEXTURE_BINDING : Nat := 4

def GPUTextureUsage.RENDER_ATTACHMENT : Nat := 16

/-- The textures `generateMipmap` touches. -/
inductive GPUTex where
  | dst
  | tmp
  deriving DecidableEq

/-- GPU operations issued by `generateMipmap`, in program order.  A `renderPass` records
the view it renders into (texture, `baseMipLevel`, `baseArrayLayer`) and the view it
samples (texture, `baseMipLevel`, `baseArrayLayer`); all views are created with
`mipLevelCount: 1, arrayLayerCount: 1`. -/
inductive GPUCmd where
  | createPipeline (format : String)
  | createTexture (tex : GPUTex) (width height depthOrArrayLayers mipLevelCount usage : Nat)
  | renderPass (target : GPUTex) (targetMip targetLayer : Nat)
      (source : GPUTex) (sourceMip sourceLayer : Nat)
  | copyTextureToTexture (source : GPUTex) (sourceMip : Nat) (target : GPUTex)
      (targetMip : Nat) (width height depthOrArrayLayers : Nat)
  | submit
  | destroyTexture (tex : GPUTex)
  deriving DecidableEq

/-- Whether a command is a render pass. -/
def GPUCmd.isRenderPass : GPUCmd → Bool
  | .renderPass _ _ _ _ _ _ => true
  | _ => false

/-- Whether a command is a texture-to-texture copy. -/
def GPUCmd.isCopy : GPUCmd → Bool
  | .copyTextureToTexture _ _ _ _ _ _ _ => true
  | _ => false

/-- For a render pass, whether the layer rendered into equals the layer sampled
(trivially `true` for other commands). -/
def GPUCmd.passLayersEqual : GPUCmd → Bool
  | .renderPass _ _ tl _ _ sl => tl == sl
  | _ => true

/-- The descriptor `t` passed to `generateMipmap` (`size` flattened). -/
structure GPUTextureDescriptor where
  format : String
  dimension : String
  width : Nat
  height : Nat
  depthOrArrayLayers : Nat
  usage : Nat
  mipLevelCount : Nat
  deriving DecidableEq

/-- JS `x || 1` on a number: `0` (falsy) becomes `1`.  Used for
`let s=t.size.depthOrArrayLayers||1`. -/
def jsOr1 (n : Nat) : Nat :=
  if n = 0 then 1 else n

/-- `getMipmapPipeline(format)`: return the cached pipeline for `format`, or compile and
cache a new one.  Returns the updated cache and the device calls made. -/
def getMipmapPipeline (pipelines : List String) (format : String) :
    List String × List GPUCmd :=
  if format ∈ pipelines then (pipelines, [])
  else (pipelines ++ [format], [.createPipeline format])

/-- Usage of the temporary render target:
`TEXTURE_BINDING|COPY_SRC|RENDER_ATTACHMENT`. -/
def tmpMipTextureUsage : Nat :=
  GPUTextureUsage.TEXTURE_BINDING ||| GPUTextureUsage.COPY_SRC |||
    GPUTextureUsage.RENDER_ATTACHMENT

/-- The inner loop `for(let h=1;h<t.mipLevelCount;++h)` of `generateMipmap` for array
layer `c`, rendering into `o` (`j = h - 1`; the target mip is `M`, which starts at
`i?1:0`; the source view is level 0 of the destination texture for the first pass and the
previously rendered level of `o` afterwards). -/
def mipmapRenderChain (attachable : Bool) (o : GPUTex) (mipLevelCount : Nat) (c : Nat) :
    List GPUCmd :=
  (List.range (mipLevelCount - 1)).map fun j =>
    let m := (if attachable then 1 else 0) + j
    if j = 0 then .renderPass o m c .dst 0 c
    else .renderPass o m c o (m - 1) c

/-- The copy loop `for(let g=1;g<t.mipLevelCount;++g)` of `generateMipmap`: copy mip
`g-1` of the temporary texture to mip `g` of the destination, halving (rounding up) the
copy extent after each step.  The last argument counts remaining iterations. -/
def mipmapCopyChain (width height depthOrArrayLayers g : Nat) : Nat → List GPUCmd
  | 0 => []
  | r + 1 =>
    .copyTextureToTexture .tmp (g - 1) .dst g width height depthOrArrayLayers ::
      mipmapCopyChain ((width + 1) / 2) ((height + 1) / 2) depthOrArrayLayers (g + 1) r

/-- Result of `generateMipmap`: updated pipeline cache, GPU operations issued in order,
and the thrown error, if any. -/
structure MipmapGenResult where
  pipelines : List String
  cmds : List GPUCmd
  thrown : Option String
  deriving DecidableEq

/-- `G.generateMipmap(e,t)` from the build.  Program order: `getMipmapPipeline` first;
then the `"3d"`/`"1d"` dimension check throws; `s=t.size.depthOrArrayLayers||1`;
`i=t.usage&GPUTextureUsage.RENDER_ATTACHMENT`.  With `i` set, the per-layer render
chains run in place on `e` (`M` starts at 1) and the encoder is submitted.  Without `i`,
a temporary texture with `mipLevelCount: t.mipLevelCount-1` and half the base extent is
created, the render chains target it (`M` starts at 0), each of its levels is copied to
the matching destination level `g = 1 .. t.mipLevelCount-1`, the encoder is submitted,
and the temporary texture is destroyed (`i||o.destroy()`).  The two usage branches of
the single JS body are written out separately here. -/
def generateMipmap (pipelines : List String) (t : GPUTextureDescriptor) :
    MipmapGenResult :=
  let pstep := getMipmapPipeline pipelines t.format
  if t.dimension = "3d" ∨ t.dimension = "1d" then
    { pipelines := pstep.1, cmds := pstep.2,
      thrown := some "Generating mipmaps for non-2d textures is currently unsupported!" }
  else if t.usage &&& GPUTextureUsage.RENDER_ATTACHMENT != 0 then
    { pipelines := pstep.1,
      cmds := pstep.2 ++
        (List.range (jsOr1 t.depthOrArrayLayers)).flatMap
          (mipmapRenderChain true .dst t.mipLevelCount) ++
        [.submit],
      thrown := none }
  else
    { pipelines := pstep.1,
      cmds := pstep.2 ++
        [.createTexture .tmp ((t.width + 1) / 2) ((t.height + 1) / 2)
          (jsOr1 t.depthOrArrayLayers) (t.mipLevelCount - 1) tmpMipTextureUsage] ++
        (List.range (jsOr1 t.depthOrArrayLayers)).flatMap
          (mipmapRenderChain false .tmp t.mipLevelCount) ++
        mipmapCopyChain ((t.width + 1) / 2) ((t.height + 1) / 2)
          (jsOr1 t.depthOrArrayLayers) 1 (t.mipLevelCount - 1) ++
        [.submit] ++ [.destroyTexture .tmp],
      thrown := none }

theorem getMipmapPipeline_cmds (pl : List String) (fmt : String) (cmd : GPUCmd)
    (hc : cmd ∈ (getMipmapPipeline pl fmt).2) : cmd = .createPipeline fmt := by
  unfold getMipmapPipeline at hc
  split at hc <;> simp_all

theorem mipmapRenderChain_shape (attachable : Bool) (o : GPUTex) (n c : Nat)
    (cmd : GPUCmd) (hc : cmd ∈ mipmapRenderChain attachable o n c) :
    ∃ m src sm, cmd = .renderPass o m c src sm c := by
  simp only [mipmapRenderChain, List.mem_map] at hc
  obtain ⟨j, hj, rfl⟩ := hc
  split
  · exact ⟨_, _, _, rfl⟩
  · exact ⟨_, _, _, rfl⟩

theorem mipmapCopyChain_mem (w h s : Nat) (g r j : Nat) (hj : j < r) :
    GPUCmd.copyTextureToTexture .tmp (g + j - 1) .dst (g + j)
      ((fun n => (n + 1) / 2)^[j] w) ((fun n => (n + 1) / 2)^[j] h) s ∈
      mipmapCopyChain w h s g r := by
  induction r generalizing w h g j with
  | zero => omega
  | succ r ih =>
    cases j with
    | zero => simp [mipmapCopyChain]
    | succ j =>
      simp only [mipmapCopyChain]
      refine List.mem_cons_of_mem _ ?_
      have heq1 : g + (j + 1) - 1 = g + 1 + j - 1 := by omega
      have heq2 : g + (j + 1) = g + 1 + j := by omega
      rw [heq1, heq2, Function.iterate_succ_apply, Function.iterate_succ_apply]
      exact ih ((w + 1) / 2) ((h + 1) / 2) (g + 1) j (by omega)

theorem mipmapCopyChain_passLayersEqual (w h s g r : Nat) (cmd : GPUCmd)
    (hc : cmd ∈ mipmapCopyChain w h s g r) : cmd.passLayersEqual = true := by
  induction r generalizing w h g with
  | zero => simp [mipmapCopyChain] at hc
  | succ r ih =>
    simp only [mipmapCopyChain, List.mem_cons] at hc
    rcases hc with rfl | hc
    · rfl
    · exact ih _ _ _ hc

theorem mipmapCopyChain_not_renderPass (w h s g r : Nat) (cmd : GPUCmd)
    (hc : cmd ∈ mipmapCopyChain w h s g r) : cmd.isRenderPass = false := by
  induction r generalizing w h g with
  | zero => simp [mipmapCopyChain] at hc
  | succ r ih =>
    simp only [mipmapCopyChain, List.mem_cons] at hc
    rcases hc with rfl | hc
    · rfl
    · exact ih _ _ _ hc

/-- Claim C5: when the destination texture's usage lacks `RENDER_ATTACHMENT`, a temporary
render-target-capable texture with exactly one fewer mip level is created, every render
pass of the down-sample chain targets the temporary texture (never the destination), each
level `g = 1 .. mipLevelCount-1` of the destination receives a GPU-side
`copyTextureToTexture` from level `g-1` of the temporary texture with the correctly
halved extent, and the temporary texture is destroyed only after everything else —
including the whole copy chain — has been encoded and submitted. -/
theorem c5_generateMipmap_uses_temp_texture (pl : List String) (t : GPUTextureDescriptor)
    (hdim : ¬(t.dimension = "3d" ∨ t.dimension = "1d"))
    (husage : t.usage &&& GPUTextureUsage.RENDER_ATTACHMENT = 0) :
    (generateMipmap pl t).thrown = none ∧
    GPUCmd.createTexture .tmp ((t.width + 1) / 2) ((t.height + 1) / 2)
        (jsOr1 t.depthOrArrayLayers) (t.mipLevelCount - 1) tmpMipTextureUsage ∈
      (generateMipmap pl t).cmds ∧
    (∀ cmd ∈ (generateMipmap pl t).cmds, cmd.isRenderPass = true →
      ∃ m c src sm, cmd = .renderPass .tmp m c src sm c) ∧
    (∀ g, 1 ≤ g → g < t.mipLevelCount →
      GPUCmd.copyTextureToTexture .tmp (g - 1) .dst g
        ((fun n => (n + 1) / 2)^[g] t.width) ((fun n => (n + 1) / 2)^[g] t.height)
        (jsOr1 t.depthOrArrayLayers) ∈ (generateMipmap pl t).cmds) ∧
    (∃ pre, (generateMipmap pl t).cmds = pre ++ [.submit, .destroyTexture .tmp]) := by
  have hi : (t.usage &&& GPUTextureUsage.RENDER_ATTACHMENT != 0) = false := by
    simp [husage]
  have hgen : generateMipmap pl t =
      { pipelines := (getMipmapPipeline pl t.format).1,
        cmds := (getMipmapPipeline pl t.format).2 ++
          [.createTexture .tmp ((t.width + 1) / 2) ((t.height + 1) / 2)
            (jsOr1 t.depthOrArrayLayers) (t.mipLevelCount - 1) tmpMipTextureUsage] ++
          (List.range (jsOr1 t.depthOrArrayLayers)).flatMap
            (mipmapRenderChain false .tmp t.mipLevelCount) ++
          mipmapCopyChain ((t.width + 1) / 2) ((t.height + 1) / 2)
            (jsOr1 t.depthOrArrayLayers) 1 (t.mipLevelCount - 1) ++
          [.submit] ++ [.destroyTexture .tmp],
        thrown := none } := by
    simp only [generateMipmap]
    rw [if_neg hdim, hi]
    simp
  rw [hgen]
  refine ⟨rfl, ?_, ?_, ?_, ?_⟩
  · simp
  · intro cmd hc hr
    simp only [List.mem_append] at hc
    rcases hc with ((((hc | hc) | hc) | hc) | hc) | hc
    · rw [getMipmapPipeline_cmds pl t.format cmd hc] at hr
      simp [GPUCmd.isRenderPass] at hr
    · simp only [List.mem_singleton] at hc
      rw [hc] at hr
      simp [GPUCmd.isRenderPass] at hr
    · rw [List.mem_flatMap] at hc
      obtain ⟨c, _, hc⟩ := hc
      obtain ⟨m, src, sm, rfl⟩ := mipmapRenderChain_shape false .tmp t.mipLevelCount c cmd hc
      exact ⟨m, c, src, sm, rfl⟩
    · rw [mipmapCopyChain_not_renderPass _ _ _ _ _ cmd hc] at hr
      cases hr
    · simp only [List.mem_singleton] at hc
      rw [hc] at hr
      simp [GPUCmd.isRenderPass] at hr
    · simp only [List.mem_singleton] at hc
      rw [hc] at hr
      simp [GPUCmd.isRenderPass] at hr
  · intro g hg1 hg2
    have hmem := mipmapCopyChain_mem ((t.width + 1) / 2) ((t.height + 1) / 2)
      (jsOr1 t.depthOrArrayLayers) 1 (t.mipLevelCount - 1) (g - 1) (by omega)
    have heq1 : 1 + (g - 1) - 1 = g - 1 := by omega
    have heq2 : 1 + (g - 1) = g := by omega
    rw [heq1, heq2] at hmem
    have hw : (fun n => (n + 1) / 2)^[g - 1] ((t.width + 1) / 2) =
        (fun n => (n + 1) / 2)^[g] t.width := by
      conv_rhs => rw [show g = (g - 1) + 1 by omega, Function.iterate_succ_apply]
    have hh : (fun n => (n + 1) / 2)^[g - 1] ((t.height + 1) / 2) =
        (fun n => (n + 1) / 2)^[g] t.height := by
      conv_rhs => rw [show g = (g - 1) + 1 by omega, Function.iterate_succ_apply]
    rw [hw, hh] at hmem
    simp only [List.mem_append]
    exact Or.inl (Or.inl (Or.inr hmem))
  · refine ⟨(getMipmapPipeline pl t.format).2 ++
      [.createTexture .tmp ((t.width + 1) / 2) ((t.height + 1) / 2)
        (jsOr1 t.depthOrArrayLayers) (t.mipLevelCount - 1) tmpMipTextureUsage] ++
      (List.range (jsOr1 t.depthOrArrayLayers)).flatMap
        (mipmapRenderChain false .tmp t.mipLevelCount) ++
      mipmapCopyChain ((t.width + 1) / 2) ((t.height + 1) / 2)
        (jsOr1 t.depthOrArrayLayers) 1 (t.mipLevelCount - 1), ?_⟩
    simp

/-- Witness for C5 on a 8×8, 4-mip, 1-layer `"rgba8unorm"` texture with usage
`TEXTURE_BINDING|COPY_DST` (no render attachment): no throw, the 4·4-sized 3-mip
temporary texture is created, and level 2 receives a copy of extent 2×2 from temporary
level 1. -/
theorem c5_witness :
    (generateMipmap []
        ⟨"rgba8unorm", "2d", 8, 8, 1, GPUTextureUsage.TEXTURE_BINDING |||
          GPUTextureUsage.COPY_DST, 4⟩).thrown = none ∧
    GPUCmd.createTexture .tmp 4 4 1 3 tmpMipTextureUsage ∈
      (generateMipmap []
        ⟨"rgba8unorm", "2d", 8, 8, 1, GPUTextureUsage.TEXTURE_BINDING |||
          GPUTextureUsage.COPY_DST, 4⟩).cmds ∧
    GPUCmd.copyTextureToTexture .tmp 1 .dst 2 2 2 1 ∈
      (generateMipmap []
        ⟨"rgba8unorm", "2d", 8, 8, 1, GPUTextureUsage.TEXTURE_BINDING |||
          GPUTextureUsage.COPY_DST, 4⟩).cmds := by
  have h := c5_generateMipmap_uses_temp_texture []
    ⟨"rgba8unorm", "2d", 8, 8, 1, GPUTextureUsage.TEXTURE_BINDING |||
      GPUTextureUsage.COPY_DST, 4⟩ (by decide) (by decide)
  refine ⟨h.1, ?_, ?_⟩
  · have h2 := h.2.1
    simpa [jsOr1] using h2
  · have h4 := h.2.2.2.1 2 (by norm_num) (by norm_num)
    simpa [jsOr1] using h4

/-- Claim C10: `generateMipmap` on a descriptor with dimension `"1d"` or `"3d"` throws
the unsupported-dimension error having encoded no render pass and no copy; on any other
dimension it does not throw, and every render pass it encodes reads and writes the same
array layer (each layer's blit chain is independent). -/
theorem c10_generateMipmap_rejects_1d_3d (pl : List String) (t : GPUTextureDescriptor) :
    ((t.dimension = "1d" ∨ t.dimension = "3d") →
      (generateMipmap pl t).thrown =
        some "Generating mipmaps for non-2d textures is currently unsupported!" ∧
      ∀ cmd ∈ (generateMipmap pl t).cmds, cmd.isRenderPass = false ∧ cmd.isCopy = false) ∧
    (¬(t.dimension = "1d" ∨ t.dimension = "3d") →
      (generateMipmap pl t).thrown = none ∧
      ∀ cmd ∈ (generateMipmap pl t).cmds, cmd.passLayersEqual = true) := by
  constructor
  · intro hdim
    have hdim2 : t.dimension = "3d" ∨ t.dimension = "1d" := hdim.symm
    have hgen : generateMipmap pl t =
        { pipelines := (getMipmapPipeline pl t.format).1,
          cmds := (getMipmapPipeline pl t.format).2,
          thrown :=
            some "Generating mipmaps for non-2d textures is currently unsupported!" } := by
      simp only [generateMipmap]
      rw [if_pos hdim2]
    rw [hgen]
    refine ⟨rfl, ?_⟩
    intro cmd hc
    rw [getMipmapPipeline_cmds pl t.format cmd hc]
    exact ⟨rfl, rfl⟩
  · intro hdim
    have hdim2 : ¬(t.dimension = "3d" ∨ t.dimension = "1d") := fun h => hdim h.symm
    have hlayers : ∀ (b : Bool) (o : GPUTex) (cmd : GPUCmd),
        cmd ∈ (List.range (jsOr1 t.depthOrArrayLayers)).flatMap
          (mipmapRenderChain b o t.mipLevelCount) → cmd.passLayersEqual = true := by
      intro b o cmd hc
      rw [List.mem_flatMap] at hc
      obtain ⟨c, _, hc⟩ := hc
      obtain ⟨m, src, sm, rfl⟩ := mipmapRenderChain_shape b o t.mipLevelCount c cmd hc
      simp [GPUCmd.passLayersEqual]
    have hcopy : ∀ cmd ∈ mipmapCopyChain ((t.width + 1) / 2) ((t.height + 1) / 2)
        (jsOr1 t.depthOrArrayLayers) 1 (t.mipLevelCount - 1),
        cmd.passLayersEqual = true :=
      fun cmd hc => mipmapCopyChain_passLayersEqual _ _ _ _ _ cmd hc
    simp only [generateMipmap]
    rw [if_neg hdim2]
    by_cases hu : (t.usage &&& GPUTextureUsage.RENDER_ATTACHMENT != 0) = true
    · rw [if_pos hu]
      refine ⟨rfl, ?_⟩
      intro cmd hc
      simp only [List.mem_append] at hc
      rcases hc with (hc | hc) | hc
      · rw [getMipmapPipeline_cmds pl t.format cmd hc]; rfl
      · exact hlayers true .dst cmd hc
      · simp only [List.mem_singleton] at hc
        rw [hc]; rfl
    · rw [if_neg hu]
      refine ⟨rfl, ?_⟩
      intro cmd hc
      simp only [List.mem_append] at hc
      rcases hc with ((((hc | hc) | hc) | hc) | hc) | hc
      · rw [getMipmapPipeline_cmds pl t.format cmd hc]; rfl
      · simp only [List.mem_singleton] at hc
        rw [hc]; rfl
      · exact hlayers false .tmp cmd hc
      · exact hcopy cmd hc
      · simp only [List.mem_singleton] at hc
        rw [hc]; rfl
      · simp only [List.mem_singleton] at hc
        rw [hc]; rfl

/-- Witness for C10: a `"3d"` descriptor throws with nothing rendered or copied; the same
descriptor with dimension `"2d"` does not throw. -/
theorem c10_witness :
    (generateMipmap [] ⟨"rgba8unorm", "3d", 8, 8, 4, 22, 4⟩).thrown =
      some "Generating mipmaps for non-2d textures is currently unsupported!" ∧
    (generateMipmap [] ⟨"rgba8unorm", "2d", 8, 8, 4, 22, 4⟩).thrown = none :=
  ⟨((c10_generateMipmap_rejects_1d_3d [] ⟨"rgba8unorm", "3d", 8, 8, 4, 22, 4⟩).1
      (by decide)).1,
    ((c10_generateMipmap_rejects_1d_3d [] ⟨"rgba8unorm", "2d", 8, 8, 4, 22, 4⟩).2
      (by decide)).1⟩

/-- Claim C7: the computed full mip-chain length `L` satisfies
`2 ^ (L - 1) ≤ max width height < 2 ^ L` (that is, `L = floor (log2 (max width height)) + 1`)
for positive dimensions, and `calculateMipLevels 257 100 = 9`. -/
theorem c7_mip_chain_length (w h : Nat) (hw : 1 ≤ w) (hh : 1 ≤ h) :
    2 ^ (calculateMipLevels w h - 1) ≤ max w h ∧
    max w h < 2 ^ calculateMipLevels w h ∧
    calculateMipLevels 257 100 = 9 := by
  have hm : max w h ≠ 0 := by omega
  have hlog : Nat.log 2 257 = 8 :=
    Nat.log_eq_of_pow_le_of_lt_pow (by norm_num) (by norm_num)
  refine ⟨?_, ?_, ?_⟩
  · simpa [calculateMipLevels, Nat.log2_eq_log_two] using Nat.pow_log_le_self 2 hm
  · simpa [calculateMipLevels, Nat.log2_eq_log_two] using
      Nat.lt_pow_succ_log_self (b := 2) (by norm_num) (max w h)
  · simp [calculateMipLevels, Nat.log2_eq_log_two, hlog]

/-- Witness for C7 at `(257, 100)`. -/
theorem c7_witness : calculateMipLevels 257 100 = 9 :=
  (c7_mip_chain_length 257 100 (by norm_num) (by norm_num)).2.2

end WebTextureTool
